import Mathlib

/-!
Verification of the prompt-composition and workflow-submission core of the
Comfyui_Presets_Util repository (src/main.py, src/comfyui.py), shallowly
embedded in Lean.  Python strings are modelled as Lean `String`
(lists of characters), Python dicts whose insertion order matters as
association lists, fallible operations as `Except`, and the HTTP layer as an
explicit `Except`-valued response argument.
-/

/-- CPython `str.replace` scanning loop: replaces non-overlapping occurrences
of `pat` left to right.  `fuel` is a structural-recursion device only; it is
called with `fuel = l.length`, which the scan can never exhaust, since each
step consumes at least one character. -/
def replaceFuel (pat rep : List Char) : Nat → List Char → List Char
  | _, [] => []
  | 0, l => l
  | fuel + 1, c :: cs =>
    if pat.isPrefixOf (c :: cs) then
      rep ++ replaceFuel pat rep fuel (List.drop (pat.length - 1) cs)
    else
      c :: replaceFuel pat rep fuel cs

/-- Python `s.replace(pat, rep)` (all occurrences; the empty pattern inserts
`rep` before every character and at the end, as in CPython). -/
def pyReplace (s pat rep : String) : String :=
  if pat.data == [] then ⟨rep.data ++ s.data.flatMap (fun c => c :: rep.data)⟩
  else ⟨replaceFuel pat.data rep.data s.data.length s.data⟩

/-- Python `sep.join(parts)`. -/
def pyJoin (sep : String) : List String → String
  | [] => ""
  | [x] => x
  | x :: xs => x ++ sep ++ pyJoin sep xs

/-- The function `pyJoin` at the character-list level, for reasoning. -/
def joinData (sep : List Char) : List (List Char) → List Char
  | [] => []
  | [x] => x
  | x :: xs => x ++ sep ++ joinData sep xs

/-- Python `s.strip(",")`: drops `','` from both ends. -/
def stripComma (s : String) : String :=
  ⟨((s.data.dropWhile (fun c => c == ',')).reverse.dropWhile (fun c => c == ',')).reverse⟩

/-- Substring occurrence test (`pat in l`, contiguous). -/
def hasSub (pat : List Char) : List Char → Bool
  | [] => pat == []
  | c :: cs => pat.isPrefixOf (c :: cs) || hasSub pat cs

/-- Lower-case hexadecimal digit, as produced by `json.dumps`. -/
def hexDigit (n : Nat) : Char :=
  if n < 10 then Char.ofNat (48 + n) else Char.ofNat (87 + n)

/-- Four-digit lower-case hex rendering used in `\uXXXX` escapes. -/
def hex4 (n : Nat) : List Char :=
  [hexDigit (n / 4096 % 16), hexDigit (n / 256 % 16), hexDigit (n / 16 % 16), hexDigit (n % 16)]

/-- The `json.dumps` escaping of one character (default `ensure_ascii=True`:
everything outside `0x20..0x7e` is `\u`-escaped, astral characters as
surrogate pairs). -/
def jsonEscapeChar (c : Char) : List Char :=
  if c = '"' then ['\\', '"']
  else if c = '\\' then ['\\', '\\']
  else if c = '\n' then ['\\', 'n']
  else if c = '\r' then ['\\', 'r']
  else if c = '\t' then ['\\', 't']
  else if c.toNat = 8 then ['\\', 'b']
  else if c.toNat = 12 then ['\\', 'f']
  else if c.toNat < 32 then '\\' :: 'u' :: hex4 c.toNat
  else if c.toNat < 127 then [c]
  else if c.toNat < 65536 then '\\' :: 'u' :: hex4 c.toNat
  else
    ('\\' :: 'u' :: hex4 (55296 + (c.toNat - 65536) / 1024)) ++
      ('\\' :: 'u' :: hex4 (56320 + (c.toNat - 65536) % 1024))

/-- Python `json.dumps(prompt)[1:-1]` (src/comfyui.py line 68): the JSON string
encoding of `s` without the outer quotes. -/
def jsonEscape (s : String) : String :=
  ⟨s.data.flatMap jsonEscapeChar⟩

/-- A JSON value, as loaded by `json.load` (floats are not needed by any
claim and are omitted). -/
inductive Json where
  | null : Json
  | bool (b : Bool) : Json
  | num (n : Int) : Json
  | str (s : String) : Json
  | arr (xs : List Json) : Json
  | obj (fields : List (String × Json)) : Json

/-- Python truthiness of a parsed JSON value (`if x:`). -/
def jsonTruthy : Json → Bool
  | .null => false
  | .bool b => b
  | .num n => !(n == 0)
  | .str s => !(s == "")
  | .arr xs => !xs.isEmpty
  | .obj fs => !fs.isEmpty

/-- Is the value a JSON string (`isinstance(x, str)`)? -/
def isJsonStr : Json → Bool
  | .str _ => true
  | _ => false

/-- The fixed category keys (src/main.py line 72). -/
def default_categories : List String := ["quality", "style", "character", "pose", "extra"]

/-- Python `doc[k]` lookup on a JSON object whose values are arrays.  The fragment
documents handled by `DataManager.load_prompt_presets` always map category
names to arrays, so the document is modelled as an ordered association list
from keys to item lists. -/
def docGet (doc : List (String × List Json)) (k : String) : Option (List Json) :=
  (doc.find? (fun p => p.1 == k)).map (fun p => p.2)

/-- src/main.py lines 82-85: legacy compatibility — if the category's list
starts with a plain string, every element `v` is rewritten to
`{"name": v, "value": v}`; otherwise the list is kept as is. -/
def normalizeCat (items : List Json) : List Json :=
  match items.head? with
  | some j =>
    if isJsonStr j then items.map (fun v => Json.obj [("name", v), ("value", v)])
    else items
  | none => items

/-- Embedding of `DataManager.load_prompt_presets` (src/main.py lines 66-88), applied to an
already-parsed document: every fixed category is looked up, normalized, and
absent categories become empty lists. -/
def load_prompt_presets (doc : List (String × List Json)) : List (String × List Json) :=
  default_categories.map (fun cat =>
    (cat, match docGet doc cat with
          | some items => normalizeCat items
          | none => []))

/-- Embedding of `DataManager.save_prompt_presets` (src/main.py lines 90-94): `json.dump`
of the in-memory mapping, i.e. the identity on the structural document. -/
def save_prompt_presets (data : List (String × List Json)) : List (String × List Json) :=
  data

/-- An item is a new-format fragment object `{name: string, value: string}`. -/
def isNewFragment : Json → Bool
  | .obj [("name", .str _), ("value", .str _)] => true
  | _ => false

/-- A well-formed fragment document: exactly the fixed categories, in their
stable written order, every item a new-format fragment object. -/
def wellFormedDoc (doc : List (String × List Json)) : Bool :=
  (doc.map (fun p => p.1) == default_categories) &&
    doc.all (fun p => p.2.all isNewFragment)


/-- The fragment categories (`MainApp.ALL_CATEGORIES`). -/
inductive Cat where
  | quality | style | character | pose | extra
deriving DecidableEq

/-- The constant `MainApp.PROMPT_CATEGORIES` (src/main.py line 102): the single-select
categories. -/
def PROMPT_CATEGORIES : List Cat := [.quality, .style, .character, .pose]

/-- The constant `MainApp.PROMPT_VALUE_ORDER` (src/main.py line 107). -/
def PROMPT_VALUE_ORDER : List Cat := [.quality, .style, .character, .pose, .extra]

/-- The constant `MainApp.PROMPT_KEY_ORDER` (src/main.py line 108). -/
def PROMPT_KEY_ORDER : List Cat := [.character, .pose, .style, .extra, .quality]

/-- An in-memory prompt fragment `{"name": ..., "value": ...}`. -/
structure Fragment where
  name : String
  value : String

/-- The in-memory `prompt_presets` mapping: category to fragment list. -/
def PromptPresets : Type := Cat → List Fragment

/-- The UI selection state feeding `generate_prompt_string`: `vars c` is
`self.prompt_vars[c].get()` for the single-select categories, `extraSel` the
names at the selected indices of the extra listbox, in listbox order. -/
structure SelectionState where
  vars : Cat → String
  extraSel : List String

/-- The lookup `next((p["value"] for p in presets if p["name"] == n), None)`. -/
def lookupValue (frs : List Fragment) (n : String) : Option String :=
  (frs.find? (fun p => p.name == n)).map (fun p => p.value)

/-- The prompt parts contributed by one category, src/main.py lines 474-485:
a missing selection, a failed lookup, or an empty value contributes nothing;
a found value is stripped of commas at both ends. -/
def catValueParts (pp : PromptPresets) (sel : SelectionState) (c : Cat) : List String :=
  match c with
  | .extra =>
    sel.extraSel.filterMap (fun n =>
      match lookupValue (pp .extra) n with
      | some v => if v == "" then none else some (stripComma v)
      | none => none)
  | _ =>
    if sel.vars c == "" then []
    else
      match lookupValue (pp c) (sel.vars c) with
      | some v => if v == "" then [] else [stripComma v]
      | none => []

/-- The list `prompt_parts`, accumulated over `PROMPT_VALUE_ORDER`. -/
def valueParts (pp : PromptPresets) (sel : SelectionState) : List String :=
  PROMPT_VALUE_ORDER.flatMap (catValueParts pp sel)

/-- The string `full_prompt = ", ".join(filter(None, prompt_parts))` (line 487). -/
def full_prompt (pp : PromptPresets) (sel : SelectionState) : String :=
  pyJoin ", " ((valueParts pp sel).filter (fun s => !(s == "")))

/-- The key parts contributed by one category, src/main.py lines 491-498:
single-select categories append the selected name unconditionally (no
lookup); the extra category appends the selected names joined by `"_"` when
any are selected. -/
def catKeyParts (sel : SelectionState) (c : Cat) : List String :=
  match c with
  | .extra => if sel.extraSel.isEmpty then [] else [pyJoin "_" sel.extraSel]
  | _ => [sel.vars c]

/-- The list `key_parts`, accumulated over `PROMPT_KEY_ORDER`. -/
def keyParts (sel : SelectionState) : List String :=
  PROMPT_KEY_ORDER.flatMap (catKeyParts sel)

/-- The string `final_key = "-".join(filter(None, key_parts))` (line 500). -/
def final_key (sel : SelectionState) : String :=
  pyJoin "-" ((keyParts sel).filter (fun s => !(s == "")))

/-- Python dict assignment `d[k] = v`: an existing key keeps its insertion
position, a new key is appended. -/
def dictSet (m : List (String × String)) (k v : String) : List (String × String) :=
  if m.any (fun p => p.1 == k) then m.map (fun p => if p.1 == k then (k, v) else p)
  else m ++ [(k, v)]

/-- Python `d.get(k)`. -/
def dictGet (m : List (String × String)) (k : String) : Option String :=
  (m.find? (fun p => p.1 == k)).map (fun p => p.2)

/-- The rejection raised when no category is selected. -/
inductive GenError where
  | invalidSelection

/-- Embedding of `MainApp.generate_prompt_string` (src/main.py lines 470-508), as a pure
transformation of the `generated_prompts` mapping: an empty composed key
shows a warning and returns with the mapping untouched; otherwise the entry
is stored (overwriting any previous entry of the same key) and persisted. -/
def generate_prompt_string (pp : PromptPresets) (sel : SelectionState)
    (gp : List (String × String)) : List (String × String) × Except GenError String :=
  let fp := full_prompt pp sel
  let k := final_key sel
  if k == "" then (gp, Except.error GenError.invalidSelection)
  else (dictSet gp k fp, Except.ok k)

/-- The `seed` attribute of a settings bundle is dynamically typed in the
source: a Python int or a string. -/
inductive PySeed where
  | int (n : Int)
  | str (s : String)

/-- Python `str(seed)`. -/
def seedStr : PySeed → String
  | .int n => toString n
  | .str t => t

/-- src/comfyui.py line 74: `seed == "RANDOM" or seed == -1 or seed == "-1"`
(Python `==` between an int and a string is False). -/
def isRandomSeed : PySeed → Bool
  | .str t => t == "RANDOM" || t == "-1"
  | .int n => n == -1

/-- The class `ComfyUISettings` (src/comfyui.py lines 9-24), restricted to the fields
`send_workflow` reads.  `lora` is `Option String` because the attribute can
hold Python `None` (line 58 compares it with `None`).  `cfg` is a Python
float; it is modelled by its `str()` rendering, since no claim depends on
float formatting. -/
structure ComfyUISettings where
  latent_width : Int
  latent_height : Int
  batch_size : Int
  seed : PySeed
  steps : Int
  cfg : String
  checkpoint : String
  lora : Option String

/-- src/comfyui.py lines 58-63: the template variant is chosen by
`lora == "" or lora == None`. -/
def chooseTemplate (base baseLora : String) (lo : Option String) : String :=
  if lo == some "" || lo == none then base else baseLora

/-- src/comfyui.py lines 74-77: the `%SEED%` substitution.  `r` is the value
returned by `random.randint(0, 2**31 - 1)` for this call. -/
def substSeed (w : String) (seed : PySeed) (r : Nat) : String :=
  if isRandomSeed seed then pyReplace w "%SEED%" (toString r)
  else pyReplace w "%SEED%" (seedStr seed)

/-- src/comfyui.py line 75 draws `random.randint(0, 2**31 - 1)`; by the
documented contract of `randint`, both bounds are inclusive. -/
def RANDINT_HI : Nat := 2 ^ 31 - 1

/-- The possible outcomes of the `random.randint(0, 2**31 - 1)` call. -/
def isPossibleDraw (r : Nat) : Prop := r ≤ RANDINT_HI

/-- The Python exception raised by `str.replace` when its replacement
argument is `None`. -/
inductive PyErr where
  | typeError

/-- src/comfyui.py lines 68-79: the substitutions performed after the
`%LORA%` step, in source order (prompt, width, height, batch size, seed,
steps, cfg), each applied to the entire current document text. -/
def substAfterLora (w : String) (st : ComfyUISettings) (p : String) (r : Nat) : String :=
  let w3 := pyReplace w "%PROMPT%" (jsonEscape p)
  let w4 := pyReplace w3 "%WIDTH%" (toString st.latent_width)
  let w5 := pyReplace w4 "%HEIGHT%" (toString st.latent_height)
  let w6 := pyReplace w5 "%BATCH_SIZE%" (toString st.batch_size)
  let w7 := substSeed w6 st.seed r
  let w8 := pyReplace w7 "%STEPS%" (toString st.steps)
  pyReplace w8 "%CFG%" st.cfg

/-- Embedding of `send_workflow`, src/comfyui.py lines 57-79: template selection and
placeholder substitution, producing the fully substituted document text.
`base` and `baseLora` are the contents of `workflows/base.json` and
`workflows/base-lora.json` (data files, not part of the source tree).  When
`lora` is `None`, line 66 `workflow_str.replace("%LORA%", None)` raises
`TypeError`.  (Line 82 `json.loads` and the POST are modelled separately.) -/
def buildWorkflowStr (base baseLora : String) (st : ComfyUISettings) (p : String)
    (r : Nat) : Except PyErr String :=
  let w1 := pyReplace (chooseTemplate base baseLora st.lora) "%CHECKPOINT%" st.checkpoint
  match st.lora with
  | none => Except.error PyErr.typeError
  | some lo => Except.ok (substAfterLora (pyReplace w1 "%LORA%" lo) st p r)

/-- A raised `requests.RequestException`. -/
inductive NetErr where
  | requestException (msg : String)

/-- An HTTP response to the POST, as read by lines 84-91. -/
structure HttpResp where
  status : Nat
  text : String

/-- What `send_workflow` reports after the POST. -/
inductive SubmissionOutcome where
  | okPrinted
  | errPrinted (status : Nat) (text : String)

/-- src/comfyui.py lines 84-91: status 200 prints success, any other status
prints the error; `requests.post` itself may raise, and `send_workflow` has
no `try`/`except`, so a `RequestException` propagates to the caller. -/
def send_workflow_post (resp : Except NetErr HttpResp) : Except NetErr SubmissionOutcome :=
  match resp with
  | .error e => Except.error e
  | .ok q =>
    if q.status == 200 then Except.ok SubmissionOutcome.okPrinted
    else Except.ok (SubmissionOutcome.errPrinted q.status q.text)

/-- The POST target URL, line 84: `BASE_URL + "prompt"`. -/
def postUrl (base : String) : String := base ++ "prompt"

/-- Embedding of `MainApp.send_selected_prompt`, src/main.py lines 566-572: each selected
key's prompt text is fetched read-only from `generated_prompts`; non-empty
texts are sent and counted.  The mapping itself is never written. -/
def send_selected (gp : List (String × String)) (keys : List String) :
    List (String × String) × Nat :=
  (gp, keys.foldl (fun cnt k => if ((dictGet gp k).getD "") == "" then cnt else cnt + 1) 0)

/-- An HTTP response to the GET, as read by `api_system_stats`:
`parsed` is the outcome of `response.json()`. -/
structure GetResp where
  status : Nat
  parsed : Except String Json

/-- Embedding of `api_system_stats` (src/comfyui.py lines 44-54): returns the parsed JSON
body on HTTP 200, `None` otherwise.  A raised `RequestException` is caught
and yields `None`; `response.json()` on an unparseable body raises
`requests.JSONDecodeError`, a subclass of `RequestException`, so it is also
caught. -/
def api_system_stats (resp : Except NetErr GetResp) : Option Json :=
  match resp with
  | .error _ => none
  | .ok q =>
    if q.status == 200 then
      match q.parsed with
      | .ok j => some j
      | .error _ => none
    else none

/-- The boolean the UI derives from the probe, src/main.py line 655:
`if api_system_stats(url):` — Python truthiness of the returned value. -/
def probeTruthy (resp : Except NetErr GetResp) : Bool :=
  match api_system_stats resp with
  | some j => jsonTruthy j
  | none => false

/-- A concrete settings bundle with an empty-string LoRA identifier. -/
def stLoraEmpty : ComfyUISettings :=
  ⟨1216, 832, 1, PySeed.int 42, 20, "3.0", "ck.safetensors", some ""⟩

/-- A concrete settings bundle whose `lora` attribute is Python `None`. -/
def stLoraNone : ComfyUISettings :=
  ⟨1216, 832, 1, PySeed.int 42, 20, "3.0", "ck.safetensors", none⟩

/-- A concrete well-formed fragment document. -/
def docWF : List (String × List Json) :=
  [("quality", [Json.obj [("name", Json.str "q1"), ("value", Json.str "masterpiece")]]),
   ("style", [Json.obj [("name", Json.str "anime"), ("value", Json.str "anime style")]]),
   ("character", []),
   ("pose", []),
   ("extra", [Json.obj [("name", Json.str "e1"), ("value", Json.str "v1")],
              Json.obj [("name", Json.str "e2"), ("value", Json.str "v2")]])]

/-- A concrete legacy document whose `style` category is a plain string list. -/
def docLegacy : List (String × List Json) :=
  [("style", [Json.str "anime", Json.str "oil painting"])]

/-- Is the character one of the two joining separators of the key? -/
def isSep (c : Char) : Bool := c == '-' || c == '_'

/-- The key-shape property: no leading separator, no trailing separator, and
no two adjacent separators anywhere. -/
def sepOK (l : List Char) : Prop :=
  (∀ a ∈ l.head?, isSep a = false) ∧ (∀ a ∈ l.getLast?, isSep a = false) ∧
    List.Chain' (fun a b => (isSep a && isSep b) = false) l

/-- The string contains no separator character. -/
def sepFreeB (s : String) : Bool := s.data.all (fun c => !isSep c)

/-- A selection state with nothing selected in any category. -/
def selEmpty : SelectionState := ⟨fun _ => "", []⟩

/-- A concrete selection state: three single selections, one empty category,
two extra selections. -/
def selGood : SelectionState :=
  ⟨fun c =>
    match c with
    | .quality => "q1"
    | .style => "anime"
    | .character => "miku"
    | _ => "",
   ["e1", "e2"]⟩

/-- A preset collection with no fragments at all. -/
def ppEmpty : PromptPresets := fun _ => []

/-- A concrete selection whose `style` selection names no existing fragment. -/
def selStale : SelectionState :=
  ⟨fun c => match c with | .style => "ghost" | _ => "", []⟩

theorem normalizeCat_of_newFragments (items : List Json)
    (h : items.all isNewFragment = true) : normalizeCat items = items := by
  cases items with
  | nil => rfl
  | cons j t =>
    simp only [List.all_cons, Bool.and_eq_true] at h
    have hj : isJsonStr j = false := by
      cases j <;> simp_all [isNewFragment, isJsonStr]
    simp [normalizeCat, hj]

theorem normalizeCat_legacy (items : List Json)
    (h : items.all isJsonStr = true) :
    normalizeCat items = items.map (fun v => Json.obj [("name", v), ("value", v)]) := by
  cases items with
  | nil => rfl
  | cons j t =>
    simp only [List.all_cons, Bool.and_eq_true] at h
    simp [normalizeCat, h.1]

/-- Claim C6: for every well-formed fragment document, saving the result of
loading it reproduces the document structurally; and for every legacy
document whose category values are lists of plain strings, loading rewrites
each string `s` to the object `{name: s, value: s}` (name equal to value). -/
theorem presets_roundtrip_and_legacy :
    (∀ doc, wellFormedDoc doc = true →
      save_prompt_presets (load_prompt_presets doc) = doc) ∧
    (∀ doc cat items, cat ∈ default_categories → docGet doc cat = some items →
      items.all isJsonStr = true →
      docGet (load_prompt_presets doc) cat =
        some (items.map (fun v => Json.obj [("name", v), ("value", v)]))) := by
  constructor
  · intro doc h
    simp only [wellFormedDoc, Bool.and_eq_true, beq_iff_eq] at h
    obtain ⟨h1, h2⟩ := h
    rcases doc with _ | ⟨⟨k1, l1⟩, _ | ⟨⟨k2, l2⟩, _ | ⟨⟨k3, l3⟩, _ | ⟨⟨k4, l4⟩,
      _ | ⟨⟨k5, l5⟩, _ | ⟨p6, rest⟩⟩⟩⟩⟩⟩ <;>
      simp [default_categories] at h1
    obtain ⟨e1, e2, e3, e4, e5⟩ := h1
    subst e1; subst e2; subst e3; subst e4; subst e5
    simp only [List.all_cons, Bool.and_eq_true] at h2
    have e : load_prompt_presets
        [("quality", l1), ("style", l2), ("character", l3), ("pose", l4), ("extra", l5)] =
        [("quality", normalizeCat l1), ("style", normalizeCat l2),
         ("character", normalizeCat l3), ("pose", normalizeCat l4),
         ("extra", normalizeCat l5)] := rfl
    simp [save_prompt_presets, e, normalizeCat_of_newFragments l1 h2.1,
      normalizeCat_of_newFragments l2 h2.2.1, normalizeCat_of_newFragments l3 h2.2.2.1,
      normalizeCat_of_newFragments l4 h2.2.2.2.1, normalizeCat_of_newFragments l5 h2.2.2.2.2.1]
  · intro doc cat items hcat hget hstr
    simp only [default_categories, List.mem_cons, List.not_mem_nil, or_false] at hcat
    rcases hcat with rfl | rfl | rfl | rfl | rfl
    · have e : docGet (load_prompt_presets doc) "quality" =
          some (match docGet doc "quality" with
                | some its => normalizeCat its
                | none => []) := rfl
      rw [e, hget]
      simp [normalizeCat_legacy items hstr]
    · have e : docGet (load_prompt_presets doc) "style" =
          some (match docGet doc "style" with
                | some its => normalizeCat its
                | none => []) := rfl
      rw [e, hget]
      simp [normalizeCat_legacy items hstr]
    · have e : docGet (load_prompt_presets doc) "character" =
          some (match docGet doc "character" with
                | some its => normalizeCat its
                | none => []) := rfl
      rw [e, hget]
      simp [normalizeCat_legacy items hstr]
    · have e : docGet (load_prompt_presets doc) "pose" =
          some (match docGet doc "pose" with
                | some its => normalizeCat its
                | none => []) := rfl
      rw [e, hget]
      simp [normalizeCat_legacy items hstr]
    · have e : docGet (load_prompt_presets doc) "extra" =
          some (match docGet doc "extra" with
                | some its => normalizeCat its
                | none => []) := rfl
      rw [e, hget]
      simp [normalizeCat_legacy items hstr]

/-- Witness for C6 at concrete documents. -/
theorem presets_roundtrip_and_legacy_witness :
    save_prompt_presets (load_prompt_presets docWF) = docWF ∧
    docGet (load_prompt_presets docLegacy) "style" =
      some [Json.obj [("name", Json.str "anime"), ("value", Json.str "anime")],
            Json.obj [("name", Json.str "oil painting"), ("value", Json.str "oil painting")]] :=
  ⟨presets_roundtrip_and_legacy.1 docWF rfl,
   presets_roundtrip_and_legacy.2 docLegacy "style"
     [Json.str "anime", Json.str "oil painting"] (by simp [default_categories]) rfl rfl⟩

/-- Claim C8: the template variant is selected solely by whether the LoRA
identifier is non-empty — an empty (or `None`) `lora` always selects the
no-LoRA template, a non-empty `lora` always the with-LoRA template. -/
theorem template_selected_by_lora (base baseLora : String) (lo : Option String) :
    ((lo = some "" ∨ lo = none) → chooseTemplate base baseLora lo = base) ∧
    (∀ t, t ≠ "" → lo = some t → chooseTemplate base baseLora lo = baseLora) := by
  constructor
  · rintro (rfl | rfl) <;> simp [chooseTemplate]
  · rintro t ht rfl
    have h1 : (some t == some "") = false := by
      simp [ht]
    have h2 : ((some t : Option String) == none) = false := rfl
    simp [chooseTemplate, h1, h2]

/-- Witness for C8 at concrete LoRA identifiers. -/
theorem template_selected_by_lora_witness :
    chooseTemplate "TBASE" "TLORA" (some "") = "TBASE" ∧
    chooseTemplate "TBASE" "TLORA" none = "TBASE" ∧
    chooseTemplate "TBASE" "TLORA" (some "style.safetensors") = "TLORA" :=
  ⟨(template_selected_by_lora "TBASE" "TLORA" (some "")).1 (Or.inl rfl),
   (template_selected_by_lora "TBASE" "TLORA" none).1 (Or.inr rfl),
   (template_selected_by_lora "TBASE" "TLORA" (some "style.safetensors")).2
     "style.safetensors" (by decide) rfl⟩

/-- Counterexample to C4 as stated: a network failure (raised
`requests.RequestException`) propagates out of `send_workflow` instead of
being reported as a Failed submission — the operation does raise. -/
theorem network_failure_counterexample :
    send_workflow_post (Except.error (NetErr.requestException "connection refused")) =
      Except.error (NetErr.requestException "connection refused") ∧
    (send_workflow_post (Except.error (NetErr.requestException "connection refused"))).isOk
      = false :=
  ⟨rfl, rfl⟩

/-- Claim C4, amended: the submission reports Ok exactly on HTTP 200 and
reports Failed (status and body) on any other status without raising, but a
network failure propagates as a raised exception; the generated-prompt
mapping is unaffected by the send path in all cases. -/
theorem submission_outcome_amended (resp : Except NetErr HttpResp) :
    (send_workflow_post resp = Except.ok SubmissionOutcome.okPrinted ↔
      ∃ q, resp = Except.ok q ∧ q.status = 200) ∧
    (∀ q, resp = Except.ok q → q.status ≠ 200 →
      send_workflow_post resp = Except.ok (SubmissionOutcome.errPrinted q.status q.text)) ∧
    (∀ e, resp = Except.error e → send_workflow_post resp = Except.error e) ∧
    (∀ gp keys, (send_selected gp keys).1 = gp) := by
  refine ⟨?_, ?_, ?_, ?_⟩
  · cases resp with
    | error e => simp [send_workflow_post]
    | ok q =>
      by_cases h : q.status = 200
      · simp [send_workflow_post, h]
      · have hb : (q.status == 200) = false := by simp [h]
        simp [send_workflow_post, hb, h]
  · rintro q rfl h
    have hb : (q.status == 200) = false := by simp [h]
    simp [send_workflow_post, hb]
  · rintro e rfl
    rfl
  · intro gp keys
    rfl

/-- Witness for C4 (amended) at concrete responses. -/
theorem submission_outcome_amended_witness :
    send_workflow_post (Except.ok ⟨500, "Internal Server Error"⟩) =
      Except.ok (SubmissionOutcome.errPrinted 500 "Internal Server Error") ∧
    send_workflow_post (Except.error (NetErr.requestException "timeout")) =
      Except.error (NetErr.requestException "timeout") ∧
    (send_selected [("k", "1girl")] ["k"]).1 = [("k", "1girl")] :=
  ⟨(submission_outcome_amended _).2.1 ⟨500, "Internal Server Error"⟩ rfl (by decide),
   (submission_outcome_amended _).2.2.1 _ rfl,
   (submission_outcome_amended (Except.error (NetErr.requestException "timeout"))).2.2.2
     [("k", "1girl")] ["k"]⟩

/-- Counterexample to C5 as stated: an HTTP 200 response with the parseable
body `{}` makes `api_system_stats` return the empty (falsy) object, so the
connectivity check treats the probe as failed although the GET returned 200
with a parseable body. -/
theorem probe_counterexample :
    api_system_stats (Except.ok ⟨200, Except.ok (Json.obj [])⟩) = some (Json.obj []) ∧
    probeTruthy (Except.ok ⟨200, Except.ok (Json.obj [])⟩) = false :=
  ⟨rfl, rfl⟩

/-- Claim C5, amended: the probe is truthy iff the GET returned HTTP 200 with
a parseable body whose parsed value is truthy (e.g. a non-empty object);
every exception, non-200 status, unparseable body, or falsy parsed value
yields false. -/
theorem probe_truthy_iff (resp : Except NetErr GetResp) :
    probeTruthy resp = true ↔
      ∃ q j, resp = Except.ok q ∧ q.status = 200 ∧ q.parsed = Except.ok j ∧
        jsonTruthy j = true := by
  cases resp with
  | error e => simp [probeTruthy, api_system_stats]
  | ok q =>
    rcases q with ⟨st, parsed⟩
    by_cases h : st = 200
    · subst h
      cases parsed with
      | error m =>
        simp [probeTruthy, api_system_stats]
      | ok j =>
        constructor
        · intro ht
          exact ⟨⟨200, Except.ok j⟩, j, rfl, rfl, rfl, ht⟩
        · rintro ⟨q', j', hq, hs, hp, ht⟩
          cases hq
          cases hp
          exact ht
    · have hb : (st == 200) = false := by simp [h]
      constructor
      · intro ht
        simp [probeTruthy, api_system_stats, hb] at ht
      · rintro ⟨q', j', hq, hs, hp, ht⟩
        cases hq
        exact absurd hs h

/-- Counterexample to C1 as stated: `random.randint(0, 2**31 - 1)` is
inclusive at both ends, so `2^31 - 1` is a possible draw, which lies outside
the claimed half-open range `[0, 2^31 - 1)`; with a sentinel seed it is
substituted verbatim. -/
theorem seed_upper_bound_counterexample :
    isPossibleDraw (2 ^ 31 - 1) ∧ ¬(2 ^ 31 - 1 < 2 ^ 31 - 1) ∧
    substSeed "%SEED%" (PySeed.str "RANDOM") (2 ^ 31 - 1) = "2147483647" :=
  ⟨Nat.le_refl _, lt_irrefl _, by rfl⟩

/-- Claim C1, amended: with a sentinel seed (`"RANDOM"`, `-1`, or `"-1"`) the
`%SEED%` placeholder is substituted with the decimal rendering of the freshly
drawn value, which ranges over `[0, 2^31 - 1]` inclusive (equivalently
`[0, 2^31)`); with any other seed (e.g. the literal 42) the substituted value
is exactly the configured literal. -/
theorem seed_resolution_amended (seed : PySeed) (s : String) (r : Nat)
    (h : isPossibleDraw r) :
    (isRandomSeed (PySeed.str "RANDOM") = true ∧ isRandomSeed (PySeed.int (-1)) = true ∧
      isRandomSeed (PySeed.str "-1") = true ∧ isRandomSeed (PySeed.int 42) = false) ∧
    (isRandomSeed seed = true →
      substSeed s seed r = pyReplace s "%SEED%" (toString r) ∧ r < 2 ^ 31) ∧
    (isRandomSeed seed = false →
      substSeed s seed r = pyReplace s "%SEED%" (seedStr seed)) ∧
    substSeed s (PySeed.int 42) r = pyReplace s "%SEED%" "42" := by
  refine ⟨by decide, ?_, ?_, ?_⟩
  · intro ht
    refine ⟨by simp [substSeed, ht], ?_⟩
    have hp : (2 : Nat) ^ 31 = 2147483648 := by norm_num
    simp only [isPossibleDraw, RANDINT_HI] at h
    omega
  · intro hf
    simp [substSeed, hf]
  · have h42 : isRandomSeed (PySeed.int 42) = false := by decide
    have hs : seedStr (PySeed.int 42) = "42" := rfl
    simp [substSeed, h42, hs]

/-- Witness for C1 (amended) at a concrete draw and concrete seeds. -/
theorem seed_resolution_amended_witness :
    (substSeed "s=%SEED%" (PySeed.str "RANDOM") 7 =
      pyReplace "s=%SEED%" "%SEED%" (toString 7) ∧ 7 < 2 ^ 31) ∧
    substSeed "s=%SEED%" (PySeed.int 42) 7 = pyReplace "s=%SEED%" "%SEED%" "42" :=
  ⟨(seed_resolution_amended (PySeed.str "RANDOM") "s=%SEED%" 7
      (by norm_num [isPossibleDraw, RANDINT_HI])).2.1 rfl,
   (seed_resolution_amended (PySeed.int 42) "s=%SEED%" 7
      (by norm_num [isPossibleDraw, RANDINT_HI])).2.2.2⟩

/-- Counterexample to C7 as stated: with `lora = None`, the template choice
still takes the no-LoRA branch, but `workflow_str.replace("%LORA%", None)`
raises `TypeError` — the operation does not complete without error. -/
theorem none_lora_counterexample :
    stLoraNone.lora = none ∧
    chooseTemplate "TBASE0" "TLORA0" stLoraNone.lora = "TBASE0" ∧
    buildWorkflowStr "TBASE0" "TLORA0" stLoraNone "1girl" 0 =
      Except.error PyErr.typeError :=
  ⟨rfl, rfl, rfl⟩

/-- Claim C7, amended: with an empty-string LoRA identifier the no-LoRA
template is chosen, every occurrence of `%LORA%` is still substituted — with
the empty string — and the substitution pipeline completes without error;
with a `None` LoRA the no-LoRA template is chosen but the `%LORA%`
substitution raises `TypeError` instead of completing. -/
theorem empty_lora_amended (base baseLora : String) (st : ComfyUISettings)
    (p : String) (r : Nat) (h : st.lora = some "") :
    chooseTemplate base baseLora st.lora = base ∧
    buildWorkflowStr base baseLora st p r =
      Except.ok (substAfterLora
        (pyReplace (pyReplace base "%CHECKPOINT%" st.checkpoint) "%LORA%" "") st p r) := by
  constructor
  · rw [h]
    simp [chooseTemplate]
  · simp [buildWorkflowStr, h, chooseTemplate]

/-- Witness for C7 (amended) at a concrete empty-LoRA bundle. -/
theorem empty_lora_amended_witness :
    chooseTemplate "TB" "TL" stLoraEmpty.lora = "TB" ∧
    buildWorkflowStr "TB" "TL" stLoraEmpty "1girl" 0 =
      Except.ok (substAfterLora
        (pyReplace (pyReplace "TB" "%CHECKPOINT%" stLoraEmpty.checkpoint) "%LORA%" "")
        stLoraEmpty "1girl" 0) :=
  empty_lora_amended "TB" "TL" stLoraEmpty "1girl" 0 rfl

/-- Claim C10: substitutions are applied sequentially to the whole document
text after the prompt has been inserted, so a prompt containing the later
`%SEED%` token has that occurrence replaced by the settings value as well,
and the instantiated document no longer contains the JSON-escaped prompt
text. -/
theorem prompt_tokens_resubstituted :
    buildWorkflowStr "SEED=%SEED% PROMPT=%PROMPT%" "TL" stLoraEmpty "a %SEED% b" 0 =
      Except.ok "SEED=42 PROMPT=a 42 b" ∧
    jsonEscape "a %SEED% b" = "a %SEED% b" ∧
    hasSub (jsonEscape "a %SEED% b").data "SEED=42 PROMPT=a 42 b".data = false :=
  ⟨rfl, rfl, rfl⟩

theorem find?_cons_true {α : Type} (p : α → Bool) (a : α) (l : List α)
    (h : p a = true) : List.find? p (a :: l) = some a := by
  simp only [List.find?, h]

theorem find?_cons_false {α : Type} (p : α → Bool) (a : α) (l : List α)
    (h : p a = false) : List.find? p (a :: l) = List.find? p l := by
  simp only [List.find?, h]

theorem find?_map_update (m : List (String × String)) (k v q : String) (hne : k ≠ q) :
    List.find? (fun p => p.1 == q) (m.map (fun p => if p.1 == k then (k, v) else p)) =
      List.find? (fun p => p.1 == q) m := by
  induction m with
  | nil => rfl
  | cons p t ih =>
    rw [List.map_cons]
    by_cases hpk : (p.1 == k) = true
    · have hp1 : p.1 = k := by simpa using hpk
      have hkq : ((k, v).1 == q) = false := by simp [hne]
      have hpq : (p.1 == q) = false := by simp [hp1, hne]
      rw [if_pos hpk,
        find?_cons_false (fun r => r.1 == q) (k, v)
          (t.map (fun p => if p.1 == k then (k, v) else p)) hkq,
        find?_cons_false (fun r => r.1 == q) p t hpq, ih]
    · rw [if_neg hpk]
      by_cases hpq : (p.1 == q) = true
      · rw [find?_cons_true (fun r => r.1 == q) p
            (t.map (fun p => if p.1 == k then (k, v) else p)) hpq,
          find?_cons_true (fun r => r.1 == q) p t hpq]
      · have hpq2 : (p.1 == q) = false := by simpa using hpq
        rw [find?_cons_false (fun r => r.1 == q) p
            (t.map (fun p => if p.1 == k then (k, v) else p)) hpq2,
          find?_cons_false (fun r => r.1 == q) p t hpq2, ih]

theorem find?_append_single (m : List (String × String)) (k v q : String) (hne : k ≠ q) :
    List.find? (fun p => p.1 == q) (m ++ [(k, v)]) =
      List.find? (fun p => p.1 == q) m := by
  induction m with
  | nil =>
    have hkq : (((k, v) : String × String).1 == q) = false := by simp [hne]
    simpa using find?_cons_false (fun r => r.1 == q) (k, v) [] hkq
  | cons p t ih =>
    rw [List.cons_append]
    by_cases hpq : (p.1 == q) = true
    · rw [find?_cons_true (fun r => r.1 == q) p (t ++ [(k, v)]) hpq,
        find?_cons_true (fun r => r.1 == q) p t hpq]
    · have hpq2 : (p.1 == q) = false := by simpa using hpq
      rw [find?_cons_false (fun r => r.1 == q) p (t ++ [(k, v)]) hpq2,
        find?_cons_false (fun r => r.1 == q) p t hpq2, ih]

theorem dictGet_dictSet_ne (m : List (String × String)) (k v q : String) (hne : k ≠ q) :
    dictGet (dictSet m k v) q = dictGet m q := by
  unfold dictGet dictSet
  by_cases h : m.any (fun p => p.1 == k)
  · simp only [h, if_true, find?_map_update m k v q hne]
  · simp only [h, if_false, Bool.false_eq_true, find?_append_single m k v q hne]

/-- Claim C2: when no category has a selection the composed key is empty,
`generate_prompt_string` rejects the attempt with the invalid-selection
warning and leaves the generated-prompt mapping untouched; moreover no run of
`generate_prompt_string` ever creates an entry with an empty key. -/
theorem generate_empty_selection_rejected (pp : PromptPresets) (sel : SelectionState)
    (gp : List (String × String))
    (h1 : ∀ c ∈ PROMPT_CATEGORIES, sel.vars c = "") (h2 : sel.extraSel = []) :
    generate_prompt_string pp sel gp = (gp, Except.error GenError.invalidSelection) ∧
    ∀ pp2 sel2 gp2,
      dictGet (generate_prompt_string pp2 sel2 gp2).1 "" = dictGet gp2 "" := by
  constructor
  · have hc := h1 .character (by simp [PROMPT_CATEGORIES])
    have hp := h1 .pose (by simp [PROMPT_CATEGORIES])
    have hs := h1 .style (by simp [PROMPT_CATEGORIES])
    have hq := h1 .quality (by simp [PROMPT_CATEGORIES])
    have hk : final_key sel = "" := by
      simp [final_key, keyParts, PROMPT_KEY_ORDER, catKeyParts, h2, hc, hp, hs, hq, pyJoin]
    simp [generate_prompt_string, hk]
  · intro pp2 sel2 gp2
    unfold generate_prompt_string
    cases hk : (final_key sel2 == "") with
    | true => simp [hk]
    | false =>
      have hne : final_key sel2 ≠ "" := by simpa using hk
      simp only [hk, Bool.false_eq_true, if_false]
      exact dictGet_dictSet_ne gp2 (final_key sel2) _ "" hne

/-- Witness for C2 at the all-empty selection. -/
theorem generate_empty_selection_rejected_witness :
    generate_prompt_string ppEmpty selEmpty [("old", "text")] =
      ([("old", "text")], Except.error GenError.invalidSelection) ∧
    dictGet (generate_prompt_string ppEmpty selGood [("old", "text")]).1 "" =
      dictGet [("old", "text")] "" :=
  ⟨(generate_empty_selection_rejected ppEmpty selEmpty [("old", "text")]
      (by intro c hc; rfl) rfl).1,
   (generate_empty_selection_rejected ppEmpty selEmpty [("old", "text")]
      (by intro c hc; rfl) rfl).2 ppEmpty selGood [("old", "text")]⟩

theorem head?_append_left (l₁ l₂ : List Char) (h : l₁ ≠ []) :
    (l₁ ++ l₂).head? = l₁.head? := by
  cases l₁ with
  | nil => exact absurd rfl h
  | cons a t => rfl

theorem getLast?_append_right (l₁ l₂ : List Char) (h : l₂ ≠ []) :
    (l₁ ++ l₂).getLast? = l₂.getLast? := by
  rw [List.getLast?_append]
  cases hl : l₂.getLast? with
  | none => exact absurd (by simpa using hl) h
  | some a => rfl

theorem data_ne_nil_of_ne_empty (s : String) (h : s ≠ "") : s.data ≠ [] := by
  intro h0
  apply h
  cases s with
  | mk d =>
    have hd : d = [] := h0
    rw [hd]

theorem pyJoin_data (sep : String) (parts : List String) :
    (pyJoin sep parts).data = joinData sep.data (parts.map String.data) := by
  induction parts with
  | nil => rfl
  | cons x xs ih =>
    cases xs with
    | nil => rfl
    | cons y ys =>
      show (x ++ sep ++ pyJoin sep (y :: ys)).data = _
      rw [String.data_append, String.data_append, ih]
      rfl

theorem joinData_ne_nil (sep : List Char) (x : List Char) (xs : List (List Char))
    (h : x ≠ []) : joinData sep (x :: xs) ≠ [] := by
  cases xs with
  | nil => exact h
  | cons y ys =>
    intro h0
    simp only [joinData, List.append_eq_nil] at h0
    exact h h0.1.1

theorem chain'_of_sepFree :
    ∀ l : List Char, (∀ a ∈ l, isSep a = false) →
      List.Chain' (fun a b => (isSep a && isSep b) = false) l := by
  intro l
  induction l with
  | nil => intro h; exact List.chain'_nil
  | cons a t ih =>
    intro h
    rw [List.chain'_cons']
    exact ⟨fun b hb => by simp [h a (by simp)],
           ih (fun b hb => h b (by simp [hb]))⟩

theorem sepOK_of_sepFree (l : List Char) (h : ∀ a ∈ l, isSep a = false) : sepOK l :=
  ⟨fun a ha => h a (List.mem_of_mem_head? ha),
   fun a ha => h a (List.mem_of_mem_getLast? ha),
   chain'_of_sepFree l h⟩

theorem sepOK_joinData (c : Char) :
    ∀ parts : List (List Char), (∀ p ∈ parts, p ≠ [] ∧ sepOK p) →
      sepOK (joinData [c] parts) := by
  intro parts
  induction parts with
  | nil =>
    intro h
    exact ⟨by simp [joinData], by simp [joinData], List.chain'_nil⟩
  | cons x xs ih =>
    intro h
    cases xs with
    | nil => exact (h x (by simp)).2
    | cons y ys =>
      obtain ⟨hxne, hxhead, hxlast, hxchain⟩ :
          x ≠ [] ∧ (∀ a ∈ x.head?, isSep a = false) ∧
            (∀ a ∈ x.getLast?, isSep a = false) ∧
            List.Chain' (fun a b => (isSep a && isSep b) = false) x := by
        obtain ⟨h1, h2, h3, h4⟩ := h x (by simp)
        exact ⟨h1, h2, h3, h4⟩
      have hrest : ∀ p ∈ y :: ys, p ≠ [] ∧ sepOK p := fun p hp => h p (by simp [hp])
      obtain ⟨hJhead, hJlast, hJchain⟩ := ih hrest
      have hyne : y ≠ [] := (hrest y (by simp)).1
      have hJne : joinData [c] (y :: ys) ≠ [] := joinData_ne_nil [c] y ys hyne
      show sepOK (x ++ [c] ++ joinData [c] (y :: ys))
      refine ⟨?_, ?_, ?_⟩
      · rw [List.append_assoc, head?_append_left x ([c] ++ joinData [c] (y :: ys)) hxne]
        exact hxhead
      · rw [getLast?_append_right (x ++ [c]) (joinData [c] (y :: ys)) hJne]
        exact hJlast
      · rw [List.chain'_append]
        refine ⟨?_, hJchain, ?_⟩
        · rw [List.chain'_append]
          refine ⟨hxchain, List.chain'_singleton c, ?_⟩
          intro a ha b hb
          simp [hxlast a ha]
        · intro a ha b hb
          have ha2 : c = a := by
            rw [List.getLast?_concat] at ha
            simpa using ha
          subst ha2
          simp [hJhead b hb]

/-- Claim C3: for selections whose names carry no separator characters
themselves, the composed key never has a leading, trailing, or doubled
separator — empty categories introduce no spurious `"-"` or `"_"`. -/
theorem key_no_spurious_separators (sel : SelectionState)
    (hx : ∀ n ∈ sel.extraSel, n ≠ "" ∧ sepFreeB n = true)
    (hv : ∀ c ∈ PROMPT_CATEGORIES, sepFreeB (sel.vars c) = true) :
    sepOK (final_key sel).data := by
  have hfree : ∀ t : String, sepFreeB t = true → ∀ a ∈ t.data, isSep a = false := by
    intro t ht a ha
    simp only [sepFreeB, List.all_eq_true] at ht
    simpa using ht a ha
  have hdata : (final_key sel).data =
      joinData ['-'] (((keyParts sel).filter (fun s => !(s == ""))).map String.data) := by
    rw [final_key, pyJoin_data]
  rw [hdata]
  apply sepOK_joinData
  intro p hp
  rw [List.mem_map] at hp
  obtain ⟨s, hsF, rfl⟩ := hp
  rw [List.mem_filter] at hsF
  obtain ⟨hsKP, hsne⟩ := hsF
  have hsne2 : s ≠ "" := by simpa using hsne
  refine ⟨data_ne_nil_of_ne_empty s hsne2, ?_⟩
  have hKP : keyParts sel =
      sel.vars .character :: sel.vars .pose :: sel.vars .style ::
        ((if sel.extraSel.isEmpty then [] else [pyJoin "_" sel.extraSel]) ++
          [sel.vars .quality]) := rfl
  rw [hKP] at hsKP
  by_cases hE : sel.extraSel.isEmpty = true
  · rw [if_pos hE] at hsKP
    simp only [List.nil_append, List.mem_cons, List.not_mem_nil, or_false] at hsKP
    rcases hsKP with rfl | rfl | rfl | rfl
    · exact sepOK_of_sepFree _ (hfree _ (hv .character (by simp [PROMPT_CATEGORIES])))
    · exact sepOK_of_sepFree _ (hfree _ (hv .pose (by simp [PROMPT_CATEGORIES])))
    · exact sepOK_of_sepFree _ (hfree _ (hv .style (by simp [PROMPT_CATEGORIES])))
    · exact sepOK_of_sepFree _ (hfree _ (hv .quality (by simp [PROMPT_CATEGORIES])))
  · rw [if_neg hE] at hsKP
    simp only [List.singleton_append, List.mem_cons, List.not_mem_nil, or_false] at hsKP
    rcases hsKP with rfl | rfl | rfl | rfl | rfl
    · exact sepOK_of_sepFree _ (hfree _ (hv .character (by simp [PROMPT_CATEGORIES])))
    · exact sepOK_of_sepFree _ (hfree _ (hv .pose (by simp [PROMPT_CATEGORIES])))
    · exact sepOK_of_sepFree _ (hfree _ (hv .style (by simp [PROMPT_CATEGORIES])))
    · rw [pyJoin_data]
      apply sepOK_joinData
      intro p hp
      rw [List.mem_map] at hp
      obtain ⟨n, hn, rfl⟩ := hp
      obtain ⟨hne, hfr⟩ := hx n hn
      exact ⟨data_ne_nil_of_ne_empty n hne, sepOK_of_sepFree _ (hfree n hfr)⟩
    · exact sepOK_of_sepFree _ (hfree _ (hv .quality (by simp [PROMPT_CATEGORIES])))

/-- Witness for C3 at a concrete selection with an unselected category. -/
theorem key_no_spurious_separators_witness :
    sepOK (final_key selGood).data :=
  key_no_spurious_separators selGood (by decide) (by decide)

theorem isPrefixOf_append_self (x r : List Char) : x.isPrefixOf (x ++ r) = true := by
  induction x with
  | nil => simp
  | cons a t ih => simp [List.isPrefixOf, ih]

theorem hasSub_of_prefix (x r : List Char) : hasSub x (x ++ r) = true := by
  cases x with
  | nil =>
    cases r with
    | nil => rfl
    | cons c cs => rfl
  | cons a t =>
    show (List.isPrefixOf (a :: t) ((a :: t) ++ r) || hasSub (a :: t) (t ++ r)) = true
    rw [isPrefixOf_append_self]
    rfl

theorem hasSub_append_right (pat l : List Char) (h : hasSub pat l = true) :
    ∀ pre : List Char, hasSub pat (pre ++ l) = true := by
  intro pre
  induction pre with
  | nil => exact h
  | cons c cs ih =>
    show (pat.isPrefixOf ((c :: cs) ++ l) || hasSub pat (cs ++ l)) = true
    rw [ih]
    simp

theorem hasSub_joinData (sep : List Char) :
    ∀ (parts : List (List Char)) (x : List Char), x ∈ parts →
      hasSub x (joinData sep parts) = true := by
  intro parts
  induction parts with
  | nil =>
    intro x hx
    exact absurd hx (List.not_mem_nil x)
  | cons p t ih =>
    intro x hx
    cases t with
    | nil =>
      have hxp : x = p := by simpa using hx
      subst hxp
      have h0 := hasSub_of_prefix x []
      rwa [List.append_nil] at h0
    | cons y ys =>
      rcases List.mem_cons.mp hx with rfl | hx2
      · show hasSub x (x ++ sep ++ joinData sep (y :: ys)) = true
        rw [List.append_assoc]
        exact hasSub_of_prefix x _
      · have hJ := ih x hx2
        show hasSub x (p ++ sep ++ joinData sep (y :: ys)) = true
        rw [List.append_assoc]
        exact hasSub_append_right x _ (hasSub_append_right x _ hJ sep) p

/-- Claim C9: a single-select category whose selected name no longer exists
in the fragment collection still contributes the stale name to the composed
key (the key path performs no lookup), while contributing nothing to the
composed prompt text (the value lookup silently yields nothing). -/
theorem stale_selection (pp : PromptPresets) (sel : SelectionState) (c : Cat)
    (hc : c ∈ PROMPT_CATEGORIES) (hn : sel.vars c ≠ "")
    (hmiss : lookupValue (pp c) (sel.vars c) = none) :
    sel.vars c ∈ keyParts sel ∧
    hasSub (sel.vars c).data (final_key sel).data = true ∧
    catValueParts pp sel c = [] := by
  have hc4 : c = Cat.quality ∨ c = Cat.style ∨ c = Cat.character ∨ c = Cat.pose := by
    simpa [PROMPT_CATEGORIES] using hc
  have hmem : sel.vars c ∈ keyParts sel := by
    have hKP : keyParts sel =
        sel.vars .character :: sel.vars .pose :: sel.vars .style ::
          ((if sel.extraSel.isEmpty then [] else [pyJoin "_" sel.extraSel]) ++
            [sel.vars .quality]) := rfl
    rw [hKP]
    rcases hc4 with rfl | rfl | rfl | rfl <;> simp
  refine ⟨hmem, ?_, ?_⟩
  · have hmemF : sel.vars c ∈ (keyParts sel).filter (fun s => !(s == "")) := by
      rw [List.mem_filter]
      exact ⟨hmem, by simpa using hn⟩
    have hmemD : (sel.vars c).data ∈
        ((keyParts sel).filter (fun s => !(s == ""))).map String.data :=
      List.mem_map_of_mem String.data hmemF
    rw [final_key, pyJoin_data]
    exact hasSub_joinData _ _ _ hmemD
  · have hb : (sel.vars c == "") = false := by simpa using hn
    rcases hc4 with rfl | rfl | rfl | rfl <;> simp [catValueParts, hb, hmiss]

/-- Witness for C9 at a concrete stale selection. -/
theorem stale_selection_witness :
    selStale.vars Cat.style ∈ keyParts selStale ∧
    hasSub (selStale.vars Cat.style).data (final_key selStale).data = true ∧
    catValueParts ppEmpty selStale Cat.style = [] :=
  stale_selection ppEmpty selStale Cat.style (by decide) (by decide) rfl
